import Mathlib

/-
Verification of the pytest-mcp domain layer (src/pytest_mcp/domain.py).

The embedding models untyped MCP request payloads as finite association
lists of JSON-like values, and the pydantic model validation of
`ExecuteTestsParams` and `DiscoverTestsParams` as total functions from a
payload to either the immutable parameter record or a list of field-level
errors (pydantic v2 accumulates all field errors before failing, runs the
`mode="after"` model validator only when every field validated, and with
`extra="forbid"` reports an error for every unknown key).  Field
validation follows pydantic v2's default lax mode as exercised by
`model_validate` in main.py: an `int | None` field also coerces numeric
strings (optionally signed ASCII digit strings, surrounding whitespace
trimmed, an optional trailing `.` followed by zeros, per pydantic-core's
string-to-int rule), and a `bool | None` field also coerces the integers
0/1 and the documented case-insensitive boolean strings
(true/t/yes/y/on/1 and false/f/no/n/off/0).  Python floats and non-string
lists are outside the modelled payload domain (the only list-typed field
is `list[str]`).
-/

/-- A JSON-like value appearing in an untyped MCP argument payload.
Arrays are modelled as arrays of strings: the only array-typed field in
either parameter model is `node_ids : list[str]`. -/
inductive Value where
  | vNull : Value
  | vBool : Bool → Value
  | vInt : Int → Value
  | vStr : String → Value
  | vList : List String → Value
  deriving DecidableEq

/-- An untyped key/value payload, as handed to `model_validate`. -/
abbrev Payload := List (String × Value)

/-- One field-level validation error: the offending location (field name,
or `""` for a model-level error) and the human-readable message. -/
structure FieldError where
  loc : String
  msg : String
  deriving DecidableEq

/-- Value of a key in a payload; a missing key behaves like JSON null,
since the pydantic fields here all have default `None`. -/
def getField (p : Payload) (k : String) : Value :=
  (p.lookup k).getD Value.vNull

/-- Collect the error (if any) of a single field validation. -/
def errOf (k : String) : Except String α → List FieldError
  | .ok _ => []
  | .error m => [⟨k, m⟩]

/-- Whether an `Except` result is a success. -/
def resultOk : Except ε α → Bool
  | .ok _ => true
  | .error _ => false

/-- Strip leading and trailing whitespace from a character list (the
trim pydantic-core applies before parsing a numeric string). -/
def trimChars (cs : List Char) : List Char :=
  ((cs.dropWhile Char.isWhitespace).reverse.dropWhile Char.isWhitespace).reverse

/-- Numeric value of a list of ASCII digits. -/
def natOfDigits (ds : List Char) : Nat :=
  ds.foldl (fun acc c => acc * 10 + (c.toNat - 48)) 0

/-- Parse an unsigned integer numeric string: one or more ASCII digits,
optionally followed by `.` and zeros (pydantic-core strips a zero-valued
decimal part, so "5", "5." and "5.00" all denote 5). -/
def parseNatPart (cs : List Char) : Option Nat :=
  let ds := cs.takeWhile Char.isDigit
  let rest := cs.dropWhile Char.isDigit
  if ds.isEmpty then none
  else
    match rest with
    | [] => some (natOfDigits ds)
    | '.' :: zs => if zs.all (fun c => c = '0') then some (natOfDigits ds) else none
    | _ => none

/-- Parse an optionally signed integer numeric string. -/
def parseIntChars : List Char → Option Int
  | '+' :: rest => (parseNatPart rest).map fun n => (n : Int)
  | '-' :: rest => (parseNatPart rest).map fun n => -(n : Int)
  | cs => (parseNatPart cs).map fun n => (n : Int)

/-- pydantic-core's lax string-to-int coercion: trim whitespace, then an
optionally signed digit string with an optional zero-valued decimal part. -/
def str_as_int (s : String) : Option Int :=
  parseIntChars (trimChars s.toList)

/-- ASCII lowercasing, as applied before matching boolean strings. -/
def lowerAscii (s : String) : String :=
  String.mk (s.toList.map Char.toLower)

/-- pydantic-core's lax string-to-bool coercion: the documented
case-insensitive boolean strings. -/
def str_as_bool (s : String) : Option Bool :=
  let l := lowerAscii s
  if l = "true" ∨ l = "t" ∨ l = "yes" ∨ l = "y" ∨ l = "on" ∨ l = "1" then some true
  else if l = "false" ∨ l = "f" ∨ l = "no" ∨ l = "n" ∨ l = "off" ∨ l = "0" then some false
  else none

/-- Lax coercion of a payload value to an integer: integers pass through,
numeric strings are parsed; booleans are explicitly rejected for int
fields by pydantic v2. -/
def coerceInt : Value → Option Int
  | .vInt n => some n
  | .vStr s => str_as_int s
  | _ => none

/-- Lax coercion of a payload value to a boolean: booleans pass through,
the integers 0/1 and the documented boolean strings coerce. -/
def coerceBool : Value → Option Bool
  | .vBool b => some b
  | .vInt n => if n = 0 then some false else if n = 1 then some true else none
  | .vStr s => str_as_bool s
  | _ => none

/-- Validation of an optional string field (`str | None`). -/
def validateOptStr : Value → Except String (Option String)
  | .vNull => .ok none
  | .vStr s => .ok (some s)
  | _ => .error "Input should be a valid string"

/-- Validation of an optional boolean field (`bool | None`), with
pydantic v2 lax coercion. -/
def validateOptBool (v : Value) : Except String (Option Bool) :=
  if v = .vNull then .ok none
  else
    match coerceBool v with
    | some b => .ok (some b)
    | none => .error "Input should be a valid boolean"

/-- Validation of an optional list-of-strings field (`list[str] | None`). -/
def validateOptListStr : Value → Except String (Option (List String))
  | .vNull => .ok none
  | .vList xs => .ok (some xs)
  | _ => .error "Input should be a valid list"

/-- Whether an integer lies within the optional `ge`/`le` bounds of a
pydantic `Field`. -/
def boundOk (lo hi : Option Int) (n : Int) : Bool :=
  (lo.all fun l => decide (l ≤ n)) && (hi.all fun h => decide (n ≤ h))

/-- Validation of an optional bounded integer field (`int | None` with
`ge`/`le` constraints), with pydantic v2 lax coercion. -/
def validateOptIntBounded (lo hi : Option Int) (v : Value) : Except String (Option Int) :=
  if v = .vNull then .ok none
  else
    match coerceInt v with
    | some n =>
      if boundOk lo hi n then .ok (some n)
      else .error "Input is out of the permitted range"
    | none => .error "Input should be a valid integer"

/-- The immutable parameter record for the `execute_tests` tool
(class `ExecuteTestsParams` in domain.py). -/
structure ExecuteTestsParams where
  node_ids : Option (List String)
  markers : Option String
  keywords : Option String
  verbosity : Option Int
  failfast : Option Bool
  maxfail : Option Int
  show_capture : Option Bool
  timeout : Option Int
  deriving DecidableEq

/-- The eight declared fields of `ExecuteTestsParams`, in declaration
order. -/
def execFieldNames : List String :=
  ["node_ids", "markers", "keywords", "verbosity", "failfast", "maxfail",
   "show_capture", "timeout"]

/-- Field-level (type/range) errors of an execute payload, in field
declaration order. -/
def execTypeErrors (p : Payload) : List FieldError :=
  errOf "node_ids" (validateOptListStr (getField p "node_ids")) ++
  errOf "markers" (validateOptStr (getField p "markers")) ++
  errOf "keywords" (validateOptStr (getField p "keywords")) ++
  errOf "verbosity" (validateOptIntBounded (some (-2)) (some 2) (getField p "verbosity")) ++
  errOf "failfast" (validateOptBool (getField p "failfast")) ++
  errOf "maxfail" (validateOptIntBounded (some 1) none (getField p "maxfail")) ++
  errOf "show_capture" (validateOptBool (getField p "show_capture")) ++
  errOf "timeout" (validateOptIntBounded (some 1) none (getField p "timeout"))

/-- Errors for unknown keys, per `model_config = {"extra": "forbid"}`. -/
def execExtraErrors (p : Payload) : List FieldError :=
  ((p.map Prod.fst).filter fun k => !(execFieldNames.contains k)).map
    fun k => ⟨k, "Extra inputs are not permitted"⟩

/-- Assemble the record when every field validation succeeds. -/
def buildExecParams (p : Payload) : Option ExecuteTestsParams :=
  match validateOptListStr (getField p "node_ids"),
        validateOptStr (getField p "markers"),
        validateOptStr (getField p "keywords"),
        validateOptIntBounded (some (-2)) (some 2) (getField p "verbosity"),
        validateOptBool (getField p "failfast"),
        validateOptIntBounded (some 1) none (getField p "maxfail"),
        validateOptBool (getField p "show_capture"),
        validateOptIntBounded (some 1) none (getField p "timeout") with
  | .ok a, .ok b, .ok c, .ok d, .ok e, .ok f, .ok g, .ok h =>
    some ⟨a, b, c, d, e, f, g, h⟩
  | _, _, _, _, _, _, _, _ => none

/-- The model-level error raised by
`ExecuteTestsParams.validate_failfast_maxfail_exclusive`. -/
def exclusivityError : FieldError :=
  ⟨"", "Parameters 'failfast' and 'maxfail' are mutually exclusive. Specify only one to control test execution stopping behavior."⟩

/-- `ExecuteTestsParams.model_validate`: field validation with error
accumulation, unknown-key rejection, then the `mode="after"` model
validator enforcing failfast/maxfail exclusivity. -/
def validateExecuteTestsParams (p : Payload) : Except (List FieldError) ExecuteTestsParams :=
  match buildExecParams p with
  | some params =>
    if execExtraErrors p = [] then
      if params.failfast.isSome && params.maxfail.isSome then
        .error [exclusivityError]
      else
        .ok params
    else
      .error (execTypeErrors p ++ execExtraErrors p)
  | none => .error (execTypeErrors p ++ execExtraErrors p)

/-- Split a character list into `/`-separated chunks (the raw pieces of a
POSIX path string). -/
def splitSlashAux : List Char → List Char → List String
  | [], acc => [String.mk acc.reverse]
  | c :: cs, acc =>
    if c = '/' then String.mk acc.reverse :: splitSlashAux cs []
    else splitSlashAux cs (c :: acc)

/-- The relative segments of `pathlib.Path(s).parts`: split on `/`, drop
empty chunks and the current-directory token `.`; parent-directory tokens
`..` are kept (pathlib does not normalize them away).  The absolute-path
root marker `/` is omitted; it is never equal to `..`, so membership of
`..` agrees with the Python tuple. -/
def pathParts (s : String) : List String :=
  (splitSlashAux s.toList []).filter fun seg => !(seg == "") && !(seg == ".")

/-- `DiscoverTestsParams.validate_no_path_traversal` from domain.py:
reject a path whose `Path(v).parts` contain `..`. -/
def validate_no_path_traversal (v : Option String) : Except String (Option String) :=
  match v with
  | none => .ok none
  | some s =>
    if (pathParts s).contains ".." then
      .error ("Path traversal not allowed: '" ++ s ++ "' contains '..' sequences. Specify paths within the project boundary only.")
    else
      .ok (some s)

/-- Validation of the `path` field: optional string, then the traversal
check. -/
def validatePathField : Value → Except String (Option String)
  | .vNull => .ok none
  | .vStr s => validate_no_path_traversal (some s)
  | _ => .error "Input should be a valid string"

/-- The immutable parameter record for the `discover_tests` tool
(class `DiscoverTestsParams` in domain.py). -/
structure DiscoverTestsParams where
  path : Option String
  pattern : Option String
  deriving DecidableEq

/-- The two declared fields of `DiscoverTestsParams`. -/
def discoverFieldNames : List String := ["path", "pattern"]

/-- Field-level errors of a discover payload. -/
def discTypeErrors (p : Payload) : List FieldError :=
  errOf "path" (validatePathField (getField p "path")) ++
  errOf "pattern" (validateOptStr (getField p "pattern"))

/-- Unknown-key errors for the discover model (`extra="forbid"`). -/
def discExtraErrors (p : Payload) : List FieldError :=
  ((p.map Prod.fst).filter fun k => !(discoverFieldNames.contains k)).map
    fun k => ⟨k, "Extra inputs are not permitted"⟩

/-- `DiscoverTestsParams.model_validate`. -/
def validateDiscoverTestsParams (p : Payload) : Except (List FieldError) DiscoverTestsParams :=
  match validatePathField (getField p "path"),
        validateOptStr (getField p "pattern") with
  | .ok a, .ok b =>
    if discExtraErrors p = [] then .ok ⟨a, b⟩
    else .error (discTypeErrors p ++ discExtraErrors p)
  | _, _ => .error (discTypeErrors p ++ discExtraErrors p)

/-- Structured validation-failure payload for unsupported protocol
versions (class `ProtocolError` in domain.py). -/
structure ProtocolError where
  field : String
  received_value : String
  supported_version : String
  detail : String
  deriving DecidableEq

/-- Validated MCP protocol version (class `ProtocolVersion`). -/
structure ProtocolVersion where
  value : String
  deriving DecidableEq

/-- Server metadata returned by initialization (class `ServerInfo`). -/
structure ServerInfo where
  name : String
  version : String
  deriving DecidableEq

/-- Capabilities advertised during initialization
(class `ServerCapabilities`). -/
structure ServerCapabilities where
  tools : Bool
  resources : Bool
  deriving DecidableEq

/-- The single statically supported protocol version literal. -/
def supportedProtocolVersion : String := "2025-03-26"

/-- `ProtocolVersion.validate_supported_version` from domain.py. -/
def validate_supported_version (v : String) : Except String String :=
  if v = supportedProtocolVersion then .ok v
  else
    .error ("Protocol version " ++ v ++ " not supported. Please retry initialization with supported version " ++ supportedProtocolVersion ++ ".")

/-- Constructing a `ProtocolVersion(value=v)`: pydantic field validation. -/
def mkProtocolVersion (v : String) : Except String ProtocolVersion :=
  (validate_supported_version v).map fun s => ⟨s⟩

/-- `initialize_server` from domain.py: validate the version; on failure
wrap the structured `ProtocolError`; on success return the validated
version with `ServerInfo` and `ServerCapabilities`. -/
def initialize_server (protocol_version : String) :
    Except ProtocolError (ProtocolVersion × ServerInfo × ServerCapabilities) :=
  match mkProtocolVersion protocol_version with
  | .error _ =>
    .error ⟨"protocolVersion", protocol_version, "2025-03-26",
      "Protocol version not supported. Please retry initialization with supported version."⟩
  | .ok validated_version =>
    .ok (validated_version, ⟨"pytest-mcp", "0.1.0"⟩, ⟨true, true⟩)

/-- The JSON schema shape pydantic's `model_json_schema` emits for these
models, restricted to the parts the interface contract is stated over:
the title, the object type, the ordered `properties` keys, and the
`additionalProperties` flag (`false` exactly when `extra="forbid"`). -/
structure JsonSchema where
  title : String
  type : String
  propertyKeys : List String
  additionalProperties : Option Bool
  deriving DecidableEq

/-- `model_json_schema` restricted to the modelled schema parts: pydantic
emits `"additionalProperties": false` exactly for `extra="forbid"` models
and omits the key otherwise. -/
def modelJsonSchema (title : String) (fields : List String) (extraForbid : Bool) : JsonSchema :=
  ⟨title, "object", fields, if extraForbid then some false else none⟩

/-- Schema advertised for `execute_tests`
(`ExecuteTestsParams.model_json_schema()`). -/
def executeTestsParamsSchema : JsonSchema :=
  modelJsonSchema "ExecuteTestsParams" execFieldNames true

/-- Schema advertised for `discover_tests`
(`DiscoverTestsParams.model_json_schema()`). -/
def discoverTestsParamsSchema : JsonSchema :=
  modelJsonSchema "DiscoverTestsParams" discoverFieldNames true

/-- MCP tool catalog entry (class `Tool` in domain.py). -/
structure Tool where
  name : String
  description : String
  inputSchema : JsonSchema
  deriving DecidableEq

/-- `list_tools` from domain.py: the fixed two-entry catalog. -/
def list_tools : List Tool :=
  [⟨"execute_tests", "Execute pytest tests with filtering and output options",
    executeTestsParamsSchema⟩,
   ⟨"discover_tests", "Discover available tests in the project",
    discoverTestsParamsSchema⟩]

/-- Modelled from the spec: `TestOutcome` (spec §3) — the execute
workflow (`domain.execute_tests`, its Result Parser and Response
Assembler) is called from main.py but absent from src, so it is modelled
from spec §3–§4.6. -/
inductive TestOutcome where
  | passed
  | failed
  | skipped
  | error
  deriving DecidableEq

/-- Modelled from the spec: `TestResult` (spec §3) — node id, outcome,
optional failure message, optional duration. -/
structure TestResult where
  node_id : String
  outcome : TestOutcome
  message : Option String
  duration : Option Rat
  deriving DecidableEq

/-- Modelled from the spec: `ExecutionSummary` (spec §3) — aggregate
counts plus total duration. -/
structure ExecutionSummary where
  total : Nat
  passed : Nat
  failed : Nat
  errors : Nat
  skipped : Nat
  duration : Rat
  deriving DecidableEq

/-- Modelled from the spec: `ExecuteResponse` (spec §3). -/
structure ExecuteResponse where
  exit_code : Int
  summary : ExecutionSummary
  tests : List TestResult
  text_output : String
  deriving DecidableEq

/-- Modelled from the spec: one per-test entry of the runner's captured
structured report (spec §4.5) — outcome plus the captured failure detail
(traceback/assertion text) when the runner recorded one. -/
structure RawTestReport where
  node_id : String
  outcome : TestOutcome
  failure_detail : Option String
  duration : Option Rat
  deriving DecidableEq

/-- Modelled from the spec: what the Process Executor yields on normal
completion (spec §4.4) — exit code, parsed-report entries, raw text. -/
structure CapturedRunnerOutput where
  exit_code : Int
  reports : List RawTestReport
  text_output : String
  total_duration : Rat
  deriving DecidableEq

/-- Modelled from the spec: Result Parser rule for one test (spec §4.5) —
a failed/error test must carry a message derived from the captured
failure detail; if that detail is missing the output does not match the
recognized report shape and parsing fails with a ParseError rather than
fabricating a placeholder. -/
def parseTestResult (r : RawTestReport) : Except String TestResult :=
  match r.outcome with
  | .failed =>
    match r.failure_detail with
    | some d => .ok ⟨r.node_id, .failed, some d, r.duration⟩
    | none => .error ("ParseError: no failure detail captured for " ++ r.node_id)
  | .error =>
    match r.failure_detail with
    | some d => .ok ⟨r.node_id, .error, some d, r.duration⟩
    | none => .error ("ParseError: no failure detail captured for " ++ r.node_id)
  | .passed => .ok ⟨r.node_id, .passed, r.failure_detail, r.duration⟩
  | .skipped => .ok ⟨r.node_id, .skipped, r.failure_detail, r.duration⟩

/-- Modelled from the spec: parse every report entry, failing on the
first unparseable one (spec §4.5). -/
def parseTestResults : List RawTestReport → Except String (List TestResult)
  | [] => .ok []
  | r :: rs =>
    match parseTestResult r, parseTestResults rs with
    | .ok t, .ok ts => .ok (t :: ts)
    | .error e, _ => .error e
    | .ok _, .error e => .error e

/-- Number of results with a given outcome. -/
def countOutcome (o : TestOutcome) (ts : List TestResult) : Nat :=
  (ts.filter fun t => t.outcome == o).length

/-- Modelled from the spec: Response Assembler summary computation
(spec §4.6) — `total` is the number of parsed tests and the per-outcome
counts partition it. -/
def summarize (dur : Rat) (ts : List TestResult) : ExecutionSummary :=
  ⟨ts.length, countOutcome .passed ts, countOutcome .failed ts,
   countOutcome .error ts, countOutcome .skipped ts, dur⟩

/-- Modelled from the spec: `domain.execute_tests` (called from main.py,
absent from src) — given validated params and the captured runner output,
parse per-test results, assemble the summary, and pass the exit code
through verbatim (spec §4.5–§4.6).  Command building and the process
spawn itself are the external side-effecting stage and are not modelled;
the captured output is taken as input. -/
def execute_tests (_params : ExecuteTestsParams) (out : CapturedRunnerOutput) :
    Except String ExecuteResponse :=
  match parseTestResults out.reports with
  | .error e => .error e
  | .ok ts => .ok ⟨out.exit_code, summarize out.total_duration ts, ts, out.text_output⟩

/-- The field-level check a declared key's value must pass (dispatch from
key to the pydantic field validator); unknown keys have no field check. -/
def fieldCheckOk (k : String) (v : Value) : Bool :=
  if k = "node_ids" then resultOk (validateOptListStr v)
  else if k = "markers" then resultOk (validateOptStr v)
  else if k = "keywords" then resultOk (validateOptStr v)
  else if k = "verbosity" then resultOk (validateOptIntBounded (some (-2)) (some 2) v)
  else if k = "failfast" then resultOk (validateOptBool v)
  else if k = "maxfail" then resultOk (validateOptIntBounded (some 1) none v)
  else if k = "show_capture" then resultOk (validateOptBool v)
  else if k = "timeout" then resultOk (validateOptIntBounded (some 1) none v)
  else true

/-- A key of a payload is offending when it is an unknown key or a
declared key whose supplied value fails its field validation. -/
def offendingField (p : Payload) (k : String) : Bool :=
  (p.map Prod.fst).contains k &&
    (!(execFieldNames.contains k) || !(fieldCheckOk k (getField p k)))

/-- Concrete execution fixture: one passing and one failing test. -/
def sampleParams : ExecuteTestsParams :=
  ⟨none, none, none, none, none, none, none, none⟩

/-- Concrete captured runner output for the witnesses. -/
def sampleOut : CapturedRunnerOutput :=
  ⟨1,
   [⟨"tests/test_user.py::test_login", .passed, none, none⟩,
    ⟨"tests/test_user.py::test_logout", .failed, some "AssertionError: assert False", none⟩],
   "1 failed, 1 passed", 2⟩

/-- The response the modelled execute operation yields on the fixture. -/
def sampleResp : ExecuteResponse :=
  ⟨1, ⟨2, 1, 1, 0, 0, 2⟩,
   [⟨"tests/test_user.py::test_login", .passed, none, none⟩,
    ⟨"tests/test_user.py::test_logout", .failed, some "AssertionError: assert False", none⟩],
   "1 failed, 1 passed"⟩

/-! ### Helper lemmas -/

theorem resultOk_false_iff {r : Except ε α} :
    resultOk r = false ↔ ∃ m, r = .error m := by
  cases r <;> simp [resultOk]

theorem validateOptBool_ok_ne_null {v : Value} {o : Option Bool}
    (h : validateOptBool v = .ok o) (hv : v ≠ .vNull) : o.isSome = true := by
  unfold validateOptBool at h
  rw [if_neg hv] at h
  split at h
  · simp only [Except.ok.injEq] at h
    subst h; rfl
  · cases h

theorem validateOptIntBounded_ok_ne_null {lo hi : Option Int} {v : Value} {o : Option Int}
    (h : validateOptIntBounded lo hi v = .ok o) (hv : v ≠ .vNull) : o.isSome = true := by
  unfold validateOptIntBounded at h
  rw [if_neg hv] at h
  split at h
  · split at h
    · simp only [Except.ok.injEq] at h
      subst h; rfl
    · cases h
  · cases h

theorem buildExecParams_some_inv {p : Payload} {params : ExecuteTestsParams}
    (h : buildExecParams p = some params) :
    validateOptListStr (getField p "node_ids") = .ok params.node_ids ∧
    validateOptStr (getField p "markers") = .ok params.markers ∧
    validateOptStr (getField p "keywords") = .ok params.keywords ∧
    validateOptIntBounded (some (-2)) (some 2) (getField p "verbosity") = .ok params.verbosity ∧
    validateOptBool (getField p "failfast") = .ok params.failfast ∧
    validateOptIntBounded (some 1) none (getField p "maxfail") = .ok params.maxfail ∧
    validateOptBool (getField p "show_capture") = .ok params.show_capture ∧
    validateOptIntBounded (some 1) none (getField p "timeout") = .ok params.timeout := by
  unfold buildExecParams at h
  split at h
  · rename_i a b c d e f g hh h1 h2 h3 h4 h5 h6 h7 h8
    cases h
    exact ⟨h1, h2, h3, h4, h5, h6, h7, h8⟩
  · cases h

theorem validateExecuteTestsParams_ok_inv {p : Payload} {params : ExecuteTestsParams}
    (h : validateExecuteTestsParams p = .ok params) :
    buildExecParams p = some params ∧ execExtraErrors p = [] ∧
    ¬(params.failfast.isSome = true ∧ params.maxfail.isSome = true) := by
  unfold validateExecuteTestsParams at h
  split at h
  · rename_i params' hb
    split at h
    · rename_i hextra
      split at h
      · cases h
      · rename_i hexcl
        cases h
        refine ⟨hb, hextra, ?_⟩
        intro ⟨hf, hm⟩
        simp [hf, hm] at hexcl
    · cases h
  · cases h

/-! ### Claim theorems -/

/-- Claim C2: whenever both `failfast` and `maxfail` are supplied with
non-null values, `ExecuteTestsParams` validation fails, regardless of all
other fields. -/
theorem claim_C2 (p : Payload) (v1 v2 : Value)
    (h1 : p.lookup "failfast" = some v1) (hv1 : v1 ≠ .vNull)
    (h2 : p.lookup "maxfail" = some v2) (hv2 : v2 ≠ .vNull) :
    resultOk (validateExecuteTestsParams p) = false := by
  cases hres : validateExecuteTestsParams p with
  | error es => rfl
  | ok params =>
    exfalso
    obtain ⟨hb, -, hexcl⟩ := validateExecuteTestsParams_ok_inv hres
    obtain ⟨-, -, -, -, hff, hmf, -, -⟩ := buildExecParams_some_inv hb
    have hgf : getField p "failfast" = v1 := by simp [getField, h1]
    have hgm : getField p "maxfail" = v2 := by simp [getField, h2]
    rw [hgf] at hff
    rw [hgm] at hmf
    exact hexcl ⟨validateOptBool_ok_ne_null hff hv1,
      validateOptIntBounded_ok_ne_null hmf hv2⟩

/-- Witness for C2 at a concrete payload supplying both `failfast` and
`maxfail`. -/
theorem claim_C2_witness :
    resultOk (validateExecuteTestsParams
      [("failfast", Value.vBool true), ("maxfail", Value.vInt 3)]) = false :=
  claim_C2 [("failfast", Value.vBool true), ("maxfail", Value.vInt 3)]
    (Value.vBool true) (Value.vInt 3) rfl (by simp) rfl (by simp)

/-- Claim C4: the handshake succeeds exactly on the supported literal
`2025-03-26`, returning that version with `ServerInfo` and
`ServerCapabilities`; every other string yields a `ProtocolError` whose
`received_value` is the offending string and whose `supported_version` is
`2025-03-26`. -/
theorem claim_C4 (s : String) :
    initialize_server s =
      (if s = "2025-03-26" then
        .ok (⟨"2025-03-26"⟩, ⟨"pytest-mcp", "0.1.0"⟩, ⟨true, true⟩)
      else
        .error ⟨"protocolVersion", s, "2025-03-26",
          "Protocol version not supported. Please retry initialization with supported version."⟩) := by
  unfold initialize_server mkProtocolVersion validate_supported_version supportedProtocolVersion
  by_cases hs : s = "2025-03-26" <;> simp [hs, Except.map]

/-- Claim C8: the advertised `execute_tests` schema has exactly the eight
declared property keys and `additionalProperties: false`. -/
theorem claim_C8 :
    (list_tools.filter fun t => t.name == "execute_tests").map Tool.inputSchema =
      [executeTestsParamsSchema] ∧
    executeTestsParamsSchema.propertyKeys =
      ["node_ids", "markers", "keywords", "verbosity", "failfast", "maxfail",
       "show_capture", "timeout"] ∧
    executeTestsParamsSchema.additionalProperties = some false := by
  refine ⟨?_, rfl, rfl⟩
  rfl

/-- Claim C9: `list_tools` is the fixed two-entry catalog — execute tool
first, discover tool second — with distinct names and non-empty
descriptions (each entry carries an `inputSchema` by construction). -/
theorem claim_C9 :
    list_tools.map Tool.name = ["execute_tests", "discover_tests"] ∧
    (list_tools.map Tool.name).Nodup ∧
    list_tools.all (fun t => !(t.description == "")) = true ∧
    list_tools.length = 2 := by
  refine ⟨rfl, ?_, rfl, rfl⟩
  decide

/-- Claim C3: a `path` with a whole `..` segment always fails
`DiscoverTestsParams` validation, and the error message names the
offending path and states the project-boundary constraint. -/
theorem claim_C3 (s : String) (h : (pathParts s).contains ".." = true) :
    validateDiscoverTestsParams [("path", Value.vStr s)] =
      .error [⟨"path", "Path traversal not allowed: '" ++ s ++ "' contains '..' sequences. Specify paths within the project boundary only."⟩] ∧
    ∃ pre post,
      "Path traversal not allowed: '" ++ s ++ "' contains '..' sequences. Specify paths within the project boundary only." =
        pre ++ s ++ post := by
  constructor
  · have hp : getField [("path", Value.vStr s)] "path" = Value.vStr s := rfl
    have hq : getField [("path", Value.vStr s)] "pattern" = Value.vNull := rfl
    have hmem : ".." ∈ pathParts s := by simpa using h
    unfold validateDiscoverTestsParams discTypeErrors discExtraErrors
    rw [hp, hq]
    simp [validatePathField, validate_no_path_traversal, hmem, validateOptStr, errOf,
      discoverFieldNames]
  · exact ⟨"Path traversal not allowed: '",
      "' contains '..' sequences. Specify paths within the project boundary only.", rfl⟩

/-- Witness for C3 at the concrete traversal path `../secret`. -/
theorem claim_C3_witness :
    validateDiscoverTestsParams [("path", Value.vStr "../secret")] =
      .error [⟨"path", "Path traversal not allowed: '../secret' contains '..' sequences. Specify paths within the project boundary only."⟩] ∧
    ∃ pre post,
      "Path traversal not allowed: '../secret' contains '..' sequences. Specify paths within the project boundary only." =
        pre ++ "../secret" ++ post :=
  claim_C3 "../secret" (by decide)

/-- Claim C10: a `path` with no whole `..` segment is accepted, including
paths where `..` occurs only inside a segment. -/
theorem claim_C10 (s : String) (h : (pathParts s).contains ".." = false) :
    validateDiscoverTestsParams [("path", Value.vStr s)] = .ok ⟨some s, none⟩ := by
  have hp : getField [("path", Value.vStr s)] "path" = Value.vStr s := rfl
  have hq : getField [("path", Value.vStr s)] "pattern" = Value.vNull := rfl
  have hmem : ".." ∉ pathParts s := by simpa using h
  unfold validateDiscoverTestsParams discExtraErrors
  rw [hp, hq]
  simp [validatePathField, validate_no_path_traversal, hmem, validateOptStr,
    discoverFieldNames]

/-- Witness for C10 at the concrete path `tests/..hidden`, where `..`
occurs only inside a segment. -/
theorem claim_C10_witness :
    validateDiscoverTestsParams [("path", Value.vStr "tests/..hidden")] =
      .ok ⟨some "tests/..hidden", none⟩ :=
  claim_C10 "tests/..hidden" (by decide)

theorem parseTestResult_message {r : RawTestReport} {t : TestResult}
    (h : parseTestResult r = .ok t)
    (hout : t.outcome = .failed ∨ t.outcome = .error) : t.message ≠ none := by
  unfold parseTestResult at h
  split at h
  · split at h
    · cases h; simp
    · cases h
  · split at h
    · cases h; simp
    · cases h
  · cases h; simp at hout
  · cases h; simp at hout

theorem parseTestResults_message {l : List RawTestReport} {ts : List TestResult}
    (h : parseTestResults l = .ok ts) :
    ∀ t ∈ ts, (t.outcome = .failed ∨ t.outcome = .error) → t.message ≠ none := by
  induction l generalizing ts with
  | nil =>
    cases h
    intro t ht
    cases ht
  | cons r rs ih =>
    unfold parseTestResults at h
    split at h
    · rename_i t' ts' h1 h2
      cases h
      intro t ht hout
      rcases List.mem_cons.mp ht with rfl | hmem
      · exact parseTestResult_message h1 hout
      · exact ih h2 t hmem hout
    · cases h
    · cases h

/-- Claim C1: every `TestResult` in a successful execute response whose
outcome is failed or error carries a non-null message (derived by the
Result Parser from the captured failure detail). -/
theorem claim_C1 (params : ExecuteTestsParams) (out : CapturedRunnerOutput)
    (resp : ExecuteResponse) (h : execute_tests params out = .ok resp)
    (t : TestResult) (ht : t ∈ resp.tests)
    (hout : t.outcome = .failed ∨ t.outcome = .error) : t.message ≠ none := by
  unfold execute_tests at h
  split at h
  · cases h
  · rename_i ts hts
    cases h
    exact parseTestResults_message hts t ht hout

theorem countOutcome_partition (ts : List TestResult) :
    ts.length = countOutcome .passed ts + countOutcome .failed ts +
      countOutcome .error ts + countOutcome .skipped ts := by
  induction ts with
  | nil => rfl
  | cons t ts ih =>
    cases ho : t.outcome <;>
      simp only [countOutcome, List.filter_cons, ho, List.length_cons] <;>
      simp only [countOutcome] at ih <;>
      simp <;> omega

/-- Claim C5: for every `ExecutionSummary` returned by the execute
operation, `total = passed + failed + errors + skipped`. -/
theorem claim_C5 (params : ExecuteTestsParams) (out : CapturedRunnerOutput)
    (resp : ExecuteResponse) (h : execute_tests params out = .ok resp) :
    resp.summary.total =
      resp.summary.passed + resp.summary.failed + resp.summary.errors +
        resp.summary.skipped := by
  unfold execute_tests at h
  split at h
  · cases h
  · rename_i ts hts
    cases h
    simpa [summarize] using countOutcome_partition ts

/-- Witness for C1 at the concrete fixture: the failing test of the
response carries a non-null message. -/
theorem claim_C1_witness :
    (⟨"tests/test_user.py::test_logout", .failed,
      some "AssertionError: assert False", none⟩ : TestResult).message ≠ none :=
  claim_C1 sampleParams sampleOut sampleResp rfl
    ⟨"tests/test_user.py::test_logout", .failed,
      some "AssertionError: assert False", none⟩
    (by simp [sampleResp]) (Or.inl rfl)

/-- Witness for C5 at the concrete fixture. -/
theorem claim_C5_witness :
    sampleResp.summary.total =
      sampleResp.summary.passed + sampleResp.summary.failed +
        sampleResp.summary.errors + sampleResp.summary.skipped :=
  claim_C5 sampleParams sampleOut sampleResp rfl

theorem validate_unknown_key (p : Payload) (k : String)
    (hk : k ∈ p.map Prod.fst) (hnot : execFieldNames.contains k = false) :
    resultOk (validateExecuteTestsParams p) = false := by
  cases hres : validateExecuteTestsParams p with
  | error es => rfl
  | ok params =>
    exfalso
    obtain ⟨-, hextra, -⟩ := validateExecuteTestsParams_ok_inv hres
    have hm : (⟨k, "Extra inputs are not permitted"⟩ : FieldError) ∈ execExtraErrors p := by
      unfold execExtraErrors
      exact List.mem_map_of_mem _ (List.mem_filter.mpr ⟨hk, by simpa using hnot⟩)
    rw [hextra] at hm
    cases hm

theorem validate_single_verbosity (v : Value) (hv : v ≠ .vNull) :
    resultOk (validateExecuteTestsParams [("verbosity", v)]) = true ↔
      ∃ n, coerceInt v = some n ∧ -2 ≤ n ∧ n ≤ 2 := by
  constructor
  · intro hok
    obtain ⟨params, hres⟩ : ∃ params,
        validateExecuteTestsParams [("verbosity", v)] = .ok params := by
      cases hres : validateExecuteTestsParams [("verbosity", v)] with
      | ok params => exact ⟨params, rfl⟩
      | error es => rw [hres] at hok; cases hok
    obtain ⟨hb, -, -⟩ := validateExecuteTestsParams_ok_inv hres
    obtain ⟨-, -, -, hfld, -, -, -, -⟩ := buildExecParams_some_inv hb
    have hg : getField [("verbosity", v)] "verbosity" = v := rfl
    rw [hg] at hfld
    unfold validateOptIntBounded at hfld
    rw [if_neg hv] at hfld
    split at hfld
    · rename_i n hn
      split at hfld
      · rename_i hbound
        exact ⟨n, hn, by simpa [boundOk] using hbound⟩
      · cases hfld
    · cases hfld
  · rintro ⟨n, hc, hlo, hhi⟩
    have hbound : boundOk (some (-2)) (some 2) n = true := by
      simp [boundOk]; omega
    have hval : validateOptIntBounded (some (-2)) (some 2)
        (getField [("verbosity", v)] "verbosity") = .ok (some n) := by
      rw [show getField [("verbosity", v)] "verbosity" = v from rfl]
      unfold validateOptIntBounded
      rw [if_neg hv, hc]
      simp [hbound]
    have hb : buildExecParams [("verbosity", v)] = some ⟨none, none, none, some n, none, none, none, none⟩ := by
      unfold buildExecParams
      rw [hval]
      rfl
    unfold validateExecuteTestsParams
    rw [hb]
    rfl

theorem validate_single_maxfail (v : Value) (hv : v ≠ .vNull) :
    resultOk (validateExecuteTestsParams [("maxfail", v)]) = true ↔
      ∃ n, coerceInt v = some n ∧ 1 ≤ n := by
  constructor
  · intro hok
    obtain ⟨params, hres⟩ : ∃ params,
        validateExecuteTestsParams [("maxfail", v)] = .ok params := by
      cases hres : validateExecuteTestsParams [("maxfail", v)] with
      | ok params => exact ⟨params, rfl⟩
      | error es => rw [hres] at hok; cases hok
    obtain ⟨hb, -, -⟩ := validateExecuteTestsParams_ok_inv hres
    obtain ⟨-, -, -, -, -, hfld, -, -⟩ := buildExecParams_some_inv hb
    have hg : getField [("maxfail", v)] "maxfail" = v := rfl
    rw [hg] at hfld
    unfold validateOptIntBounded at hfld
    rw [if_neg hv] at hfld
    split at hfld
    · rename_i n hn
      split at hfld
      · rename_i hbound
        exact ⟨n, hn, by simpa [boundOk] using hbound⟩
      · cases hfld
    · cases hfld
  · rintro ⟨n, hc, hlo⟩
    have hbound : boundOk (some 1) none n = true := by
      simp [boundOk]; omega
    have hval : validateOptIntBounded (some 1) none
        (getField [("maxfail", v)] "maxfail") = .ok (some n) := by
      rw [show getField [("maxfail", v)] "maxfail" = v from rfl]
      unfold validateOptIntBounded
      rw [if_neg hv, hc]
      simp [hbound]
    have hb : buildExecParams [("maxfail", v)] = some ⟨none, none, none, none, none, some n, none, none⟩ := by
      unfold buildExecParams
      rw [hval]
      rfl
    unfold validateExecuteTestsParams
    rw [hb]
    rfl

theorem validate_single_timeout (v : Value) (hv : v ≠ .vNull) :
    resultOk (validateExecuteTestsParams [("timeout", v)]) = true ↔
      ∃ n, coerceInt v = some n ∧ 1 ≤ n := by
  constructor
  · intro hok
    obtain ⟨params, hres⟩ : ∃ params,
        validateExecuteTestsParams [("timeout", v)] = .ok params := by
      cases hres : validateExecuteTestsParams [("timeout", v)] with
      | ok params => exact ⟨params, rfl⟩
      | error es => rw [hres] at hok; cases hok
    obtain ⟨hb, -, -⟩ := validateExecuteTestsParams_ok_inv hres
    obtain ⟨-, -, -, -, -, -, -, hfld⟩ := buildExecParams_some_inv hb
    have hg : getField [("timeout", v)] "timeout" = v := rfl
    rw [hg] at hfld
    unfold validateOptIntBounded at hfld
    rw [if_neg hv] at hfld
    split at hfld
    · rename_i n hn
      split at hfld
      · rename_i hbound
        exact ⟨n, hn, by simpa [boundOk] using hbound⟩
      · cases hfld
    · cases hfld
  · rintro ⟨n, hc, hlo⟩
    have hbound : boundOk (some 1) none n = true := by
      simp [boundOk]; omega
    have hval : validateOptIntBounded (some 1) none
        (getField [("timeout", v)] "timeout") = .ok (some n) := by
      rw [show getField [("timeout", v)] "timeout" = v from rfl]
      unfold validateOptIntBounded
      rw [if_neg hv, hc]
      simp [hbound]
    have hb : buildExecParams [("timeout", v)] = some ⟨none, none, none, none, none, none, none, some n⟩ := by
      unfold buildExecParams
      rw [hval]
      rfl
    unfold validateExecuteTestsParams
    rw [hb]
    rfl

/-- Claim C7 as amended: a supplied (non-null) `verbosity` is accepted
exactly when it lax-coerces to an integer in `[-2, 2]` (an integer, or a
numeric string denoting one), `maxfail` and `timeout` exactly when they
lax-coerce to integers `≥ 1`, and any payload containing a key outside
the eight declared fields is rejected. -/
theorem claim_C7 :
    (∀ v : Value, v ≠ .vNull →
      (resultOk (validateExecuteTestsParams [("verbosity", v)]) = true ↔
        ∃ n, coerceInt v = some n ∧ -2 ≤ n ∧ n ≤ 2)) ∧
    (∀ v : Value, v ≠ .vNull →
      (resultOk (validateExecuteTestsParams [("maxfail", v)]) = true ↔
        ∃ n, coerceInt v = some n ∧ 1 ≤ n)) ∧
    (∀ v : Value, v ≠ .vNull →
      (resultOk (validateExecuteTestsParams [("timeout", v)]) = true ↔
        ∃ n, coerceInt v = some n ∧ 1 ≤ n)) ∧
    (∀ (p : Payload) (k : String), k ∈ p.map Prod.fst →
      execFieldNames.contains k = false →
      resultOk (validateExecuteTestsParams p) = false) :=
  ⟨validate_single_verbosity, validate_single_maxfail, validate_single_timeout,
    validate_unknown_key⟩

/-- Counterexample to C7 as stated: the numeric string `"2"` is not an
integer, yet pydantic v2 lax coercion makes `{"verbosity": "2"}` validate,
so acceptance of `verbosity` is not equivalent to being an integer in
`[-2, 2]`. -/
theorem claim_C7_counterexample :
    ¬(resultOk (validateExecuteTestsParams [("verbosity", Value.vStr "2")]) = true ↔
        ∃ n, Value.vStr "2" = Value.vInt n ∧ -2 ≤ n ∧ n ≤ 2) := by
  intro hiff
  obtain ⟨n, hn, -⟩ := hiff.mp (by decide)
  cases hn

/-- Witness for C7: the numeric string `"2"` is accepted for `verbosity`,
`maxfail = 0` coerces but is out of range, and an unknown key is
rejected. -/
theorem claim_C7_witness :
    (resultOk (validateExecuteTestsParams [("verbosity", Value.vStr "2")]) = true ↔
      ∃ n, coerceInt (Value.vStr "2") = some n ∧ -2 ≤ n ∧ n ≤ 2) ∧
    (resultOk (validateExecuteTestsParams [("maxfail", Value.vInt 0)]) = true ↔
      ∃ n, coerceInt (Value.vInt 0) = some n ∧ 1 ≤ n) ∧
    (resultOk (validateExecuteTestsParams
      [("bogus_key", Value.vStr "x")]) = false) :=
  ⟨claim_C7.1 (Value.vStr "2") (by simp),
   claim_C7.2.1 (Value.vInt 0) (by simp),
   claim_C7.2.2.2 [("bogus_key", Value.vStr "x")] "bogus_key" (by simp) (by decide)⟩

theorem buildExecParams_none_of_fieldCheck {p : Payload} {k : String}
    (hmem : execFieldNames.contains k = true)
    (hk : fieldCheckOk k (getField p k) = false) : buildExecParams p = none := by
  have hcases : k = "node_ids" ∨ k = "markers" ∨ k = "keywords" ∨ k = "verbosity" ∨
      k = "failfast" ∨ k = "maxfail" ∨ k = "show_capture" ∨ k = "timeout" := by
    simpa [execFieldNames] using hmem
  rcases hcases with rfl | rfl | rfl | rfl | rfl | rfl | rfl | rfl
  · replace hk : resultOk (validateOptListStr (getField p "node_ids")) = false := hk
    rw [resultOk_false_iff] at hk
    obtain ⟨m, hm⟩ := hk
    unfold buildExecParams
    split
    · rename_i a b c d e f g hh h1 h2 h3 h4 h5 h6 h7 h8
      rw [hm] at h1
      cases h1
    · rfl
  · replace hk : resultOk (validateOptStr (getField p "markers")) = false := hk
    rw [resultOk_false_iff] at hk
    obtain ⟨m, hm⟩ := hk
    unfold buildExecParams
    split
    · rename_i a b c d e f g hh h1 h2 h3 h4 h5 h6 h7 h8
      rw [hm] at h2
      cases h2
    · rfl
  · replace hk : resultOk (validateOptStr (getField p "keywords")) = false := hk
    rw [resultOk_false_iff] at hk
    obtain ⟨m, hm⟩ := hk
    unfold buildExecParams
    split
    · rename_i a b c d e f g hh h1 h2 h3 h4 h5 h6 h7 h8
      rw [hm] at h3
      cases h3
    · rfl
  · replace hk : resultOk (validateOptIntBounded (some (-2)) (some 2) (getField p "verbosity")) = false := hk
    rw [resultOk_false_iff] at hk
    obtain ⟨m, hm⟩ := hk
    unfold buildExecParams
    split
    · rename_i a b c d e f g hh h1 h2 h3 h4 h5 h6 h7 h8
      rw [hm] at h4
      cases h4
    · rfl
  · replace hk : resultOk (validateOptBool (getField p "failfast")) = false := hk
    rw [resultOk_false_iff] at hk
    obtain ⟨m, hm⟩ := hk
    unfold buildExecParams
    split
    · rename_i a b c d e f g hh h1 h2 h3 h4 h5 h6 h7 h8
      rw [hm] at h5
      cases h5
    · rfl
  · replace hk : resultOk (validateOptIntBounded (some 1) none (getField p "maxfail")) = false := hk
    rw [resultOk_false_iff] at hk
    obtain ⟨m, hm⟩ := hk
    unfold buildExecParams
    split
    · rename_i a b c d e f g hh h1 h2 h3 h4 h5 h6 h7 h8
      rw [hm] at h6
      cases h6
    · rfl
  · replace hk : resultOk (validateOptBool (getField p "show_capture")) = false := hk
    rw [resultOk_false_iff] at hk
    obtain ⟨m, hm⟩ := hk
    unfold buildExecParams
    split
    · rename_i a b c d e f g hh h1 h2 h3 h4 h5 h6 h7 h8
      rw [hm] at h7
      cases h7
    · rfl
  · replace hk : resultOk (validateOptIntBounded (some 1) none (getField p "timeout")) = false := hk
    rw [resultOk_false_iff] at hk
    obtain ⟨m, hm⟩ := hk
    unfold buildExecParams
    split
    · rename_i a b c d e f g hh h1 h2 h3 h4 h5 h6 h7 h8
      rw [hm] at h8
      cases h8
    · rfl

theorem offending_validate_error {p : Payload} {k : String}
    (h : offendingField p k = true) :
    validateExecuteTestsParams p = .error (execTypeErrors p ++ execExtraErrors p) := by
  unfold offendingField at h
  rw [Bool.and_eq_true, Bool.or_eq_true] at h
  obtain ⟨hkeys, hdisj⟩ := h
  rcases hdisj with hunk | hfail
  · have hm : (⟨k, "Extra inputs are not permitted"⟩ : FieldError) ∈ execExtraErrors p := by
      unfold execExtraErrors
      exact List.mem_map_of_mem _ (List.mem_filter.mpr ⟨by simpa using hkeys, hunk⟩)
    have hne : execExtraErrors p ≠ [] := List.ne_nil_of_mem hm
    unfold validateExecuteTestsParams
    split
    · rw [if_neg hne]
    · rfl
  · simp only [Bool.not_eq_true'] at hfail
    have hmem : execFieldNames.contains k = true := by
      by_contra hc
      have hc' : ¬(k = "node_ids" ∨ k = "markers" ∨ k = "keywords" ∨ k = "verbosity" ∨
          k = "failfast" ∨ k = "maxfail" ∨ k = "show_capture" ∨ k = "timeout") := by
        intro hor
        exact hc (by simpa [execFieldNames] using hor)
      push_neg at hc'
      obtain ⟨n1, n2, n3, n4, n5, n6, n7, n8⟩ := hc'
      simp [fieldCheckOk, n1, n2, n3, n4, n5, n6, n7, n8] at hfail
    have hnone := buildExecParams_none_of_fieldCheck hmem hfail
    unfold validateExecuteTestsParams
    rw [hnone]

theorem offending_mem_errors {p : Payload} {k : String}
    (h : offendingField p k = true) :
    ∃ e ∈ execTypeErrors p ++ execExtraErrors p, e.loc = k := by
  unfold offendingField at h
  rw [Bool.and_eq_true, Bool.or_eq_true] at h
  obtain ⟨hkeys, hdisj⟩ := h
  rcases hdisj with hunk | hfail
  · refine ⟨⟨k, "Extra inputs are not permitted"⟩, ?_, rfl⟩
    apply List.mem_append_right
    unfold execExtraErrors
    exact List.mem_map_of_mem _ (List.mem_filter.mpr ⟨by simpa using hkeys, hunk⟩)
  · simp only [Bool.not_eq_true'] at hfail
    by_cases e1 : k = "node_ids"
    · subst e1
      replace hfail : resultOk (validateOptListStr (getField p "node_ids")) = false := hfail
      rw [resultOk_false_iff] at hfail
      obtain ⟨m, hm⟩ := hfail
      refine ⟨⟨"node_ids", m⟩, ?_, rfl⟩
      apply List.mem_append_left
      unfold execTypeErrors
      rw [hm]
      simp [errOf]
    by_cases e2 : k = "markers"
    · subst e2
      replace hfail : resultOk (validateOptStr (getField p "markers")) = false := by
        simpa [fieldCheckOk, e1] using hfail
      rw [resultOk_false_iff] at hfail
      obtain ⟨m, hm⟩ := hfail
      refine ⟨⟨"markers", m⟩, ?_, rfl⟩
      apply List.mem_append_left
      unfold execTypeErrors
      rw [hm]
      simp [errOf]
    by_cases e3 : k = "keywords"
    · subst e3
      replace hfail : resultOk (validateOptStr (getField p "keywords")) = false := by
        simpa [fieldCheckOk, e1, e2] using hfail
      rw [resultOk_false_iff] at hfail
      obtain ⟨m, hm⟩ := hfail
      refine ⟨⟨"keywords", m⟩, ?_, rfl⟩
      apply List.mem_append_left
      unfold execTypeErrors
      rw [hm]
      simp [errOf]
    by_cases e4 : k = "verbosity"
    · subst e4
      replace hfail : resultOk (validateOptIntBounded (some (-2)) (some 2)
          (getField p "verbosity")) = false := by
        simpa [fieldCheckOk, e1, e2, e3] using hfail
      rw [resultOk_false_iff] at hfail
      obtain ⟨m, hm⟩ := hfail
      refine ⟨⟨"verbosity", m⟩, ?_, rfl⟩
      apply List.mem_append_left
      unfold execTypeErrors
      rw [hm]
      simp [errOf]
    by_cases e5 : k = "failfast"
    · subst e5
      replace hfail : resultOk (validateOptBool (getField p "failfast")) = false := by
        simpa [fieldCheckOk, e1, e2, e3, e4] using hfail
      rw [resultOk_false_iff] at hfail
      obtain ⟨m, hm⟩ := hfail
      refine ⟨⟨"failfast", m⟩, ?_, rfl⟩
      apply List.mem_append_left
      unfold execTypeErrors
      rw [hm]
      simp [errOf]
    by_cases e6 : k = "maxfail"
    · subst e6
      replace hfail : resultOk (validateOptIntBounded (some 1) none
          (getField p "maxfail")) = false := by
        simpa [fieldCheckOk, e1, e2, e3, e4, e5] using hfail
      rw [resultOk_false_iff] at hfail
      obtain ⟨m, hm⟩ := hfail
      refine ⟨⟨"maxfail", m⟩, ?_, rfl⟩
      apply List.mem_append_left
      unfold execTypeErrors
      rw [hm]
      simp [errOf]
    by_cases e7 : k = "show_capture"
    · subst e7
      replace hfail : resultOk (validateOptBool (getField p "show_capture")) = false := by
        simpa [fieldCheckOk, e1, e2, e3, e4, e5, e6] using hfail
      rw [resultOk_false_iff] at hfail
      obtain ⟨m, hm⟩ := hfail
      refine ⟨⟨"show_capture", m⟩, ?_, rfl⟩
      apply List.mem_append_left
      unfold execTypeErrors
      rw [hm]
      simp [errOf]
    by_cases e8 : k = "timeout"
    · subst e8
      replace hfail : resultOk (validateOptIntBounded (some 1) none
          (getField p "timeout")) = false := by
        simpa [fieldCheckOk, e1, e2, e3, e4, e5, e6, e7] using hfail
      rw [resultOk_false_iff] at hfail
      obtain ⟨m, hm⟩ := hfail
      refine ⟨⟨"timeout", m⟩, ?_, rfl⟩
      apply List.mem_append_left
      unfold execTypeErrors
      rw [hm]
      simp [errOf]
    · exfalso
      simp [fieldCheckOk, e1, e2, e3, e4, e5, e6, e7, e8] at hfail

/-- Claim C6: a payload with more than one offending field fails
validation with an error list naming every offending field, not just the
first. -/
theorem claim_C6 (p : Payload) (k1 k2 : String) (_hne : k1 ≠ k2)
    (h1 : offendingField p k1 = true) (_h2 : offendingField p k2 = true) :
    ∃ es, validateExecuteTestsParams p = .error es ∧
      ∀ k, offendingField p k = true → ∃ e ∈ es, e.loc = k :=
  ⟨execTypeErrors p ++ execExtraErrors p, offending_validate_error h1,
    fun _ hk => offending_mem_errors hk⟩

/-- Witness for C6: a payload with an out-of-range `verbosity` and an
unknown key; both offending fields are named in the error list. -/
theorem claim_C6_witness :
    ∃ es, validateExecuteTestsParams
        [("verbosity", Value.vInt 99), ("bogus", Value.vStr "x")] = .error es ∧
      ∀ k, offendingField
          [("verbosity", Value.vInt 99), ("bogus", Value.vStr "x")] k = true →
        ∃ e ∈ es, e.loc = k :=
  claim_C6 [("verbosity", Value.vInt 99), ("bogus", Value.vStr "x")]
    "verbosity" "bogus" (by decide) (by decide) (by decide)
